import Mathlib

/-!
Verification of the zkd proof-toolkit core against its specification.

Byte strings are modelled as `List Nat` (one entry per byte, little-endian
where the Rust code uses `to_le_bytes`), machine integers as `Nat` with
explicit reduction modulo `2 ^ 64` (resp. `2 ^ 32`) wherever the Rust code
relies on fixed-width semantics.  The Blake3 / Keccak-256 / Poseidon2 /
Rescue digest cores are not re-implemented: every construction that
consumes a digest is parameterised by the underlying digest function, so
collision-freeness assumptions appear as explicit hypotheses of the
theorems instead of being silently baked into the model.
-/

/-- UTF-8 bytes of a string.  All strings appearing in the modelled code
paths (labels, identifiers, JSON) are ASCII, where codepoints and UTF-8
bytes coincide. -/
def strBytes (s : String) : List Nat := s.data.map Char.toNat

/-- `u32::to_le_bytes`. -/
def toLeBytes4 (n : Nat) : List Nat :=
  [n % 256, n / 2 ^ 8 % 256, n / 2 ^ 16 % 256, n / 2 ^ 24 % 256]

/-- `u64::to_le_bytes`. -/
def toLeBytes8 (n : Nat) : List Nat :=
  [n % 256, n / 2 ^ 8 % 256, n / 2 ^ 16 % 256, n / 2 ^ 24 % 256,
   n / 2 ^ 32 % 256, n / 2 ^ 40 % 256, n / 2 ^ 48 % 256, n / 2 ^ 56 % 256]

/-- `uNN::from_le_bytes` on a byte list. -/
def fromLeBytes (l : List Nat) : Nat := l.foldr (fun b acc => b + 256 * acc) 0

/-! ## Proof envelope (`corelib/src/proof.rs`) -/

/-- `MAGIC = *b"PROF"`. -/
def MAGIC : List Nat := [80, 82, 79, 70]

/-- `pub struct ProofHeader` — four `u64` fields. -/
structure ProofHeader where
  backend_id_hash : Nat
  profile_id_hash : Nat
  pubio_hash : Nat
  body_len : Nat
deriving DecidableEq, Repr

/-- All four fields fit in a `u64` (guaranteed by the Rust types). -/
def ProofHeader.WF (h : ProofHeader) : Prop :=
  h.backend_id_hash < 2 ^ 64 ∧ h.profile_id_hash < 2 ^ 64 ∧
  h.pubio_hash < 2 ^ 64 ∧ h.body_len < 2 ^ 64

instance (h : ProofHeader) : Decidable h.WF := by
  unfold ProofHeader.WF; infer_instance

/-- `ProofHeader::encode`: MAGIC ++ VERSION(=1, u32 LE) ++ four u64 LE
fields.  Parenthesised right-nested to mirror the byte offsets. -/
def ProofHeader.encode (h : ProofHeader) : List Nat :=
  MAGIC ++ (toLeBytes4 1 ++ (toLeBytes8 h.backend_id_hash ++
    (toLeBytes8 h.profile_id_hash ++ (toLeBytes8 h.pubio_hash ++
      toLeBytes8 h.body_len))))

/-- `ProofHeader::decode`. -/
def ProofHeader.decode (bytes : List Nat) : Except String ProofHeader :=
  if bytes.length < 40 then .error "proof too short for header"
  else if bytes.take 4 ≠ MAGIC then .error "bad magic"
  else if fromLeBytes ((bytes.drop 4).take 4) ≠ 1 then
    .error "unsupported proof version"
  else .ok
    { backend_id_hash := fromLeBytes ((bytes.drop 8).take 8)
      profile_id_hash := fromLeBytes ((bytes.drop 16).take 8)
      pubio_hash := fromLeBytes ((bytes.drop 24).take 8)
      body_len := fromLeBytes ((bytes.drop 32).take 8) }

/-- `assemble_proof`: header(40) ++ body. -/
def assemble_proof (header : ProofHeader) (body : List Nat) : List Nat :=
  header.encode ++ body

/-! ## Capability model, configuration and `validate_config`
(`corelib/src/config.rs`, `corelib/src/backend.rs`, `corelib/src/errors.rs`,
`corelib/src/profile.rs`, `corelib/src/validate.rs`).

The process-wide backend registry is modelled as the lookup function it
provides at the time of the call (`get_backend_capabilities`), and the
profile directory as the outcome of `load_all_profiles`. -/

/-- `pub struct Config` (the fields read by `validate_config` and the
native backend; `profile_id` is the profile selector they consume). -/
structure Config where
  backend_id : String
  field : String
  hash : String
  fri_arity : Nat
  recursion_needed : Bool
  profile_id : String
deriving DecidableEq, Repr

/-- `pub struct Capabilities` (the part consulted by `validate_config`). -/
structure Capabilities where
  fields : List String
  hashes : List String
  fri_arities : List Nat
  recursion : String
  lookups : Bool
deriving DecidableEq, Repr

/-- `pub struct Profile` (only `id` is consulted by `validate_config`). -/
structure Profile where
  id : String
  lambda_bits : Nat
  fri_blowup : Option Nat
  fri_queries : Option Nat
  grind_bits : Option Nat
  merkle_arity : Option Nat
  const_col_limit : Option Nat
  rows_max : Option Nat
deriving DecidableEq, Repr

/-- `pub enum CapabilityError` (`corelib/src/errors.rs`). -/
inductive CapabilityError where
  | Mismatch (detail : String)
  | FieldUnsupported (backend_id field : String)
  | HashUnsupported (backend_id hash : String)
  | FriArityUnsupported (backend_id : String) (fri_arity : Nat)
  | RecursionUnavailable (backend_id : String)
  | ProfileNotFound (profile : String)
deriving DecidableEq, Repr

/-- The native backend's advertised `Capabilities`
(`backends/native/src/lib.rs`). -/
def nativeCapabilities : Capabilities :=
  { fields := ["Prime254"], hashes := ["blake3"], fri_arities := [2, 4],
    recursion := "none", lookups := false }

/-- `builtin_profiles()` (already sorted by id). -/
def builtin_profiles : List Profile :=
  [ { id := "balanced", lambda_bits := 100, fri_blowup := some 16,
      fri_queries := some 30, grind_bits := some 18, merkle_arity := some 2,
      const_col_limit := none, rows_max := none },
    { id := "dev-fast", lambda_bits := 80, fri_blowup := some 8,
      fri_queries := some 24, grind_bits := some 16, merkle_arity := some 2,
      const_col_limit := none, rows_max := none },
    { id := "secure", lambda_bits := 120, fri_blowup := some 32,
      fri_queries := some 50, grind_bits := some 20, merkle_arity := some 2,
      const_col_limit := none, rows_max := none } ]

/-- Registry state with only the built-in native backend registered
(the state `ensure_builtins_registered` establishes). -/
def builtinRegistry : String → Option Capabilities := fun id =>
  if id = "native@0.0" then some nativeCapabilities else none

/-- `validate_config` (`corelib/src/validate.rs`), with the registry lookup
`caps` and the result `profilesRes` of `load_all_profiles` as parameters. -/
def validate_config (caps : String → Option Capabilities)
    (profilesRes : Except String (List Profile)) (cfg : Config) :
    Except CapabilityError Unit :=
  match caps cfg.backend_id with
  | none =>
    .error (.Mismatch ("unknown backend '" ++ cfg.backend_id ++ "'"))
  | some c =>
    if ¬ c.fields.contains cfg.field then
      .error (.FieldUnsupported cfg.backend_id cfg.field)
    else if ¬ c.hashes.contains cfg.hash then
      .error (.HashUnsupported cfg.backend_id cfg.hash)
    else if ¬ c.fri_arities.contains cfg.fri_arity then
      .error (.FriArityUnsupported cfg.backend_id cfg.fri_arity)
    else if cfg.recursion_needed ∧ c.recursion = "none" then
      .error (.RecursionUnavailable cfg.backend_id)
    else
      match profilesRes with
      | .error e => .error (.Mismatch e)
      | .ok profiles =>
        if ¬ profiles.any (fun p => p.id = cfg.profile_id) then
          .error (.ProfileNotFound cfg.profile_id)
        else .ok ()

/-- Rendering of the spec's words for `validate_config`: a fixed ordered
list of checks, each paired with the code reported on violation, of which
the first violation is returned.  (The spec names the first code
`UnknownBackend`; the source has no such variant and reports
`Mismatch("unknown backend '…'")`, which is what this rendering — amended
accordingly — uses.) -/
def orderedConfigChecks (c : Capabilities)
    (profilesRes : Except String (List Profile)) (cfg : Config) :
    List (Bool × CapabilityError) :=
  [ (c.fields.contains cfg.field, .FieldUnsupported cfg.backend_id cfg.field),
    (c.hashes.contains cfg.hash, .HashUnsupported cfg.backend_id cfg.hash),
    (c.fri_arities.contains cfg.fri_arity,
      .FriArityUnsupported cfg.backend_id cfg.fri_arity),
    (!decide (cfg.recursion_needed = true ∧ c.recursion = "none"),
      .RecursionUnavailable cfg.backend_id),
    (match profilesRes with
     | .error _ => false
     | .ok profiles => profiles.any (fun p => p.id = cfg.profile_id),
     match profilesRes with
     | .error e => .Mismatch e
     | .ok _ => .ProfileNotFound cfg.profile_id) ]

/-- First violating code of an ordered check list, `Ok(())` if none. -/
def firstViolation : List (Bool × CapabilityError) → Except CapabilityError Unit
  | [] => .ok ()
  | (passed, code) :: rest =>
    if passed then firstViolation rest else .error code

/-- Spec-side rendering: backend existence first, then the ordered checks. -/
def validateConfigSpec (caps : String → Option Capabilities)
    (profilesRes : Except String (List Profile)) (cfg : Config) :
    Except CapabilityError Unit :=
  match caps cfg.backend_id with
  | none =>
    .error (.Mismatch ("unknown backend '" ++ cfg.backend_id ++ "'"))
  | some c => firstViolation (orderedConfigChecks c profilesRes cfg)

/-! ## AIR program and trace shape (`corelib/src/air.rs`, `corelib/src/trace.rs`) -/

/-- `pub enum AirHash` — `Poseidon2 | Blake3 | Rescue`. -/
inductive AirHash where
  | Poseidon2
  | Blake3
  | Rescue
deriving DecidableEq, Repr

/-- `format!("{:?}", hash)` — the derived Debug rendering. -/
def AirHash.debugName : AirHash → String
  | .Poseidon2 => "Poseidon2"
  | .Blake3 => "Blake3"
  | .Rescue => "Rescue"

/-- `pub struct AirMeta`. -/
structure AirMeta where
  name : String
  field : String
  hash : AirHash
  backend : Option String
  profile : Option String
  degree_hint : Option Nat
deriving DecidableEq, Repr

/-- `pub struct AirColumns` — `u32` fields. -/
structure AirColumns where
  trace_cols : Nat
  const_cols : Nat
  periodic_cols : Nat
deriving DecidableEq, Repr

/-- `pub struct AirConstraints` — `u32` fields. -/
structure AirConstraints where
  transition_count : Nat
  boundary_count : Nat
deriving DecidableEq, Repr

/-- `pub struct AirPublicInput` (type tag kept as its string form). -/
structure AirPublicInput where
  name : String
  ty : String
deriving DecidableEq, Repr

/-- `pub struct AirCommitments` (bindings list elided — not consumed by
the verified operations). -/
structure AirCommitments where
  pedersen : Bool
  curve : Option String
deriving DecidableEq, Repr

/-- `pub struct AirProgram`.  A value of this type stands for the result
of a successful `AirProgram::load_from_file`. -/
structure AirProgram where
  meta : AirMeta
  columns : AirColumns
  constraints : AirConstraints
  rows_hint : Option Nat
  public_inputs : List AirPublicInput
  commitments : Option AirCommitments
deriving DecidableEq, Repr

/-- `pub struct TraceShape` — `u32` fields. -/
structure TraceShape where
  rows : Nat
  cols : Nat
  const_cols : Nat
  periodic_cols : Nat
deriving DecidableEq, Repr

/-- `TraceShape::from_air`: rows default to `2^16` when `rows_hint` is
absent. -/
def TraceShape.from_air (air : AirProgram) : TraceShape :=
  { rows := air.rows_hint.getD (2 ^ 16)
    cols := air.columns.trace_cols
    const_cols := air.columns.const_cols
    periodic_cols := air.columns.periodic_cols }

/-! ## Native backend (`backends/native/src/lib.rs`)

`proof::hash64` is the first 8 bytes of Blake3(label ‖ data) read
little-endian.  The Blake3 core is abstracted as a parameter
`h64 : List Nat → Nat`; `hash64` reduces it modulo `2 ^ 64` to mirror the
`u64` result type. -/

/-- `proof::hash64(label, data)` with the truncated-Blake3 core `h64`. -/
def Proof.hash64 (h64 : List Nat → Nat) (label : String) (data : List Nat) : Nat :=
  h64 (strBytes label ++ data) % 2 ^ 64

/-- `u64::rotate_left(13)` for values `< 2^64`. -/
def rotl64 (x k : Nat) : Nat :=
  ((x <<< k) % 2 ^ 64) ||| (x >>> (64 - k))

/-- The mixing step of `fake_trace_root_u64`:
`*acc ^= h.rotate_left(13) ^ h.wrapping_mul(0x9e3779b97f4a7c15)`. -/
def mixStep (acc h : Nat) : Nat :=
  acc ^^^ (rotl64 h 13 ^^^ (h * 0x9e3779b97f4a7c15 % 2 ^ 64))

/-- `fake_trace_root_u64(air, inputs_json)`. -/
def fake_trace_root_u64 (h64 : List Nat → Nat) (air : AirProgram)
    (inputs_json : String) : Nat :=
  let shape := TraceShape.from_air air
  let a1 := mixStep 0 (Proof.hash64 h64 "AIR.NAME" (strBytes air.meta.name))
  let a2 := mixStep a1 (Proof.hash64 h64 "AIR.FIELD" (strBytes air.meta.field))
  let a3 := mixStep a2 (Proof.hash64 h64 "AIR.HASH" (strBytes air.meta.hash.debugName))
  let a4 := mixStep a3 (Proof.hash64 h64 "TRACE.ROWS" (toLeBytes4 shape.rows))
  let a5 := mixStep a4 (Proof.hash64 h64 "TRACE.COLS" (toLeBytes4 shape.cols))
  mixStep a5 (Proof.hash64 h64 "IO.JSON" (strBytes inputs_json))

/-- Error type of the native prove/verify entry points (`anyhow`): either a
propagated capability error or a message produced locally. -/
inductive NativeError where
  | cap (e : CapabilityError)
  | msg (s : String)
deriving DecidableEq, Repr

/-- `native_prove(config, public_inputs_json, air_path)`, with the loaded
AIR standing for `air_path` and the registry and profile state as parameters. -/
def native_prove (h64 : List Nat → Nat) (caps : String → Option Capabilities)
    (profilesRes : Except String (List Profile)) (config : Config)
    (public_inputs_json : String) (air : AirProgram) :
    Except NativeError (List Nat) :=
  match validate_config caps profilesRes config with
  | .error e => .error (.cap e)
  | .ok _ =>
    let backend_id_hash := Proof.hash64 h64 "BACKEND" (strBytes config.backend_id)
    let profile_id_hash := Proof.hash64 h64 "PROFILE" (strBytes config.profile_id)
    let pubio_hash := Proof.hash64 h64 "PUBIO" (strBytes public_inputs_json)
    let root := fake_trace_root_u64 h64 air public_inputs_json
    let body := toLeBytes8 root
    let header : ProofHeader :=
      { backend_id_hash := backend_id_hash, profile_id_hash := profile_id_hash
        pubio_hash := pubio_hash, body_len := body.length }
    .ok (assemble_proof header body)

/-- `native_verify(config, public_inputs_json, air_path, proof_bytes)`. -/
def native_verify (h64 : List Nat → Nat) (caps : String → Option Capabilities)
    (profilesRes : Except String (List Profile)) (config : Config)
    (public_inputs_json : String) (air : AirProgram)
    (proof_bytes : List Nat) : Except NativeError Bool :=
  match validate_config caps profilesRes config with
  | .error e => .error (.cap e)
  | .ok _ =>
    if proof_bytes.length < 40 then .error (.msg "proof too short")
    else
      match ProofHeader.decode (proof_bytes.take 40) with
      | .error e => .error (.msg e)
      | .ok header =>
        let body := proof_bytes.drop 40
        if body.length ≠ header.body_len then
          .error (.msg "body length mismatch")
        else if Proof.hash64 h64 "BACKEND" (strBytes config.backend_id)
            ≠ header.backend_id_hash then
          .error (.msg "backend id hash mismatch")
        else if Proof.hash64 h64 "PROFILE" (strBytes config.profile_id)
            ≠ header.profile_id_hash then
          .error (.msg "profile id hash mismatch")
        else if Proof.hash64 h64 "PUBIO" (strBytes public_inputs_json)
            ≠ header.pubio_hash then
          .error (.msg "public io hash mismatch")
        else if body ≠ toLeBytes8 (fake_trace_root_u64 h64 air
            public_inputs_json) then
          .error (.msg "fake trace root mismatch")
        else .ok true

/-- Rendering of the spec's words for the trace-root proxy: an accumulator
starting at 0, folded over the six labelled fields in the fixed order
AIR.NAME, AIR.FIELD, AIR.HASH, TRACE.ROWS, TRACE.COLS, IO.JSON with
`acc XOR (h <<< 13) XOR (h · 0x9e3779b97f4a7c15)`, where TRACE.ROWS/COLS
are the little-endian u32 of the AIR-derived shape (rows defaulting to
`2^16`). -/
def traceRootSpec (h64 : List Nat → Nat) (air : AirProgram)
    (inputs_json : String) : Nat :=
  [ ("AIR.NAME", strBytes air.meta.name),
    ("AIR.FIELD", strBytes air.meta.field),
    ("AIR.HASH", strBytes air.meta.hash.debugName),
    ("TRACE.ROWS", toLeBytes4 (air.rows_hint.getD (2 ^ 16))),
    ("TRACE.COLS", toLeBytes4 air.columns.trace_cols),
    ("IO.JSON", strBytes inputs_json) ].foldl
    (fun acc lb => mixStep acc (Proof.hash64 h64 lb.1 lb.2)) 0

/-! ## Hash registry (`corelib/src/crypto/registry.rs`, `crypto/hash.rs`)

The four digest cores are abstracted as a bundle of functions on byte
lists. -/

/-- Bundle of the four digest cores dispatched by the registry. -/
structure Hashers where
  blake3 : List Nat → List Nat
  keccak256 : List Nat → List Nat
  poseidon2 : List Nat → List Nat
  rescue : List Nat → List Nat

/-- Source `hash_labeled`: H(label ‖ data). -/
def hash_labeled (H : List Nat → List Nat) (label : String)
    (data : List Nat) : List Nat :=
  H (strBytes label ++ data)

/-- ASCII whitespace recognizer: the code points in the ASCII range with
the Unicode `White_Space` property (TAB, LF, VT, FF, CR, SPACE), matching
`str::trim` on ASCII input. -/
def isWsChar (c : Char) : Bool :=
  decide (c.toNat = 9 ∨ c.toNat = 10 ∨ c.toNat = 11 ∨ c.toNat = 12 ∨
    c.toNat = 13 ∨ c.toNat = 32)

/-- Drop leading whitespace (`str::trim_start`). -/
def trimFront (l : List Char) : List Char := l.dropWhile isWsChar

/-- Drop trailing whitespace (`str::trim_end`). -/
def trimBack (l : List Char) : List Char :=
  (l.reverse.dropWhile isWsChar).reverse

/-- Source `str::trim` on a character list. -/
def trimChars (l : List Char) : List Char := trimBack (trimFront l)

/-- Source `char::to_ascii_lowercase`. -/
def asciiLowerChar (c : Char) : Char :=
  if 65 ≤ c.toNat ∧ c.toNat ≤ 90 then Char.ofNat (c.toNat + 32) else c

/-- Source `normalize(id) = id.trim().to_ascii_lowercase()` (named apart from Mathlib). -/
def normalizeId (id : String) : String :=
  ⟨(trimChars id.data).map asciiLowerChar⟩

/-- Source `hash32_by_id(id, label, data)`: resolve the normalized id and
return H(label ‖ data), `None` for unknown ids. -/
def hash32_by_id (Hs : Hashers) (id : String) (label : String)
    (data : List Nat) : Option (List Nat) :=
  if normalizeId id = "blake3" then some (hash_labeled Hs.blake3 label data)
  else if normalizeId id = "keccak256" then
    some (hash_labeled Hs.keccak256 label data)
  else if normalizeId id = "poseidon2" then
    some (hash_labeled Hs.poseidon2 label data)
  else if normalizeId id = "rescue" then
    some (hash_labeled Hs.rescue label data)
  else none

/-- Source `hash64_by_id`: little-endian u64 from the first 8 digest
bytes. -/
def hash64_by_id (Hs : Hashers) (id : String) (label : String)
    (data : List Nat) : Option Nat :=
  (hash32_by_id Hs id label data).map (fun digest => fromLeBytes (digest.take 8))

/-! ## Pedersen placeholder and privacy gadgets
(`corelib/src/gadgets/commitment.rs`, `corelib/src/zkprov_bundles/…`) -/

/-- Source `pub enum PrivacyError`. -/
inductive PrivacyError where
  | InvalidCurvePoint
  | BlindingReuse
  | RangeCheckOverflow
  | UnsupportedCurve
  | Internal (s : String)
deriving DecidableEq, Repr

/-- Display rendering of `PrivacyError` (its `to_string()`). -/
def PrivacyError.toMessage : PrivacyError → String
  | .InvalidCurvePoint => "InvalidCurvePoint"
  | .BlindingReuse => "BlindingReuse"
  | .RangeCheckOverflow => "RangeCheckOverflow"
  | .UnsupportedCurve => "UnsupportedCurve"
  | .Internal s => "Internal(" ++ s ++ ")"

/-- Length-prefixed commitment buffer of `PedersenPlaceholder::commit_raw`:
`len(m) ‖ m ‖ len(r) ‖ r` with `u64` little-endian lengths. -/
def pedersenBuf (msg blind : List Nat) : List Nat :=
  toLeBytes8 msg.length ++ (msg ++ (toLeBytes8 blind.length ++ blind))

/-- Source `PedersenPlaceholder::commit_raw`:
`H_id("PEDERSEN", len(m) ‖ m ‖ len(r) ‖ r)`. -/
def commit_raw (Hs : Hashers) (hash_id : String) (msg blind : List Nat) :
    Option (List Nat) :=
  hash32_by_id Hs hash_id "PEDERSEN" (pedersenBuf msg blind)

/-- Source `PedersenPlaceholder::commit` (a `Comm32` is its digest). -/
def PedersenPlaceholder.commit (Hs : Hashers) (hash_id : String)
    (msg blind : List Nat) : Except String (List Nat) :=
  match commit_raw Hs hash_id msg blind with
  | none => .error ("unsupported hash id '" ++ hash_id ++ "'")
  | some digest => .ok digest

/-- Source `PedersenPlaceholder::open`: recompute and compare. -/
def PedersenPlaceholder.openComm (Hs : Hashers) (hash_id : String)
    (msg blind commitment : List Nat) : Except String Bool :=
  match commit_raw Hs hash_id msg blind with
  | none => .error ("unsupported hash id '" ++ hash_id ++ "'")
  | some digest => .ok (digest = commitment)

/-- Source `pub struct CommitmentsPolicy` (`air/bindings.rs`). -/
structure CommitmentsPolicy where
  pedersen : Bool
  curve : Option String
  no_r_reuse : Option Bool
deriving DecidableEq, Repr

/-- Source `pub struct Bindings` (`air/bindings.rs`). -/
structure Bindings where
  commitments : CommitmentsPolicy
  hash_id_for_commitments : Option String
deriving DecidableEq, Repr

/-- Source `pub struct BlindingTracker` — the set of used blinds. -/
structure BlindingTracker where
  used : List (List Nat)
deriving DecidableEq, Repr

/-- Source `BlindingTracker::new`. -/
def BlindingTracker.new : BlindingTracker := ⟨[]⟩

/-- Source `BlindingTracker::note_and_check` — returns the updated tracker
and the error, if any (the Rust method mutates `self`). -/
def BlindingTracker.note_and_check (t : BlindingTracker) (r : List Nat)
    (no_reuse : Bool) : BlindingTracker × Option PrivacyError :=
  if ¬ no_reuse then (t, none)
  else if t.used.contains r then (t, some .BlindingReuse)
  else (⟨r :: t.used⟩, none)

/-- Source `pub struct PedersenCtx` (hash id, curve, no-reuse policy). -/
structure PedersenCtx where
  hash_id : String
  curve : String
  no_r_reuse : Bool
deriving DecidableEq, Repr

/-- Source `PedersenCtx::from_bindings`: only the "placeholder" curve is
accepted; hash id defaults to "blake3". -/
def PedersenCtx.from_bindings (b : Bindings) :
    Except PrivacyError PedersenCtx :=
  let curve := b.commitments.curve.getD "placeholder"
  if curve ≠ "placeholder" then .error .UnsupportedCurve
  else .ok
    { hash_id := b.hash_id_for_commitments.getD "blake3"
      curve := curve
      no_r_reuse := b.commitments.no_r_reuse.getD false }

/-- Source `pub struct PedersenCommit` — the placeholder (Cx, Cy) pair. -/
structure PedersenCommit where
  cx : List Nat
  cy : List Nat
deriving DecidableEq, Repr

/-- Source `expand_to_point`: two domain-separated digests of the base
commitment. -/
def expand_to_point (Hs : Hashers) (hash_id : String) (base : List Nat) :
    Except PrivacyError (List Nat × List Nat) :=
  match hash32_by_id Hs hash_id "PEDERSEN.CX" base with
  | none => .error (.Internal "hash id not supported")
  | some cx =>
    match hash32_by_id Hs hash_id "PEDERSEN.CY" base with
    | none => .error (.Internal "hash id not supported")
    | some cy => .ok (cx, cy)

/-- Source `PedersenCtx::commit` — returns the updated tracker plus the
result (the Rust method mutates the tracker). -/
def PedersenCtx.commit (Hs : Hashers) (ctx : PedersenCtx)
    (tracker : BlindingTracker) (msg blind : List Nat) :
    BlindingTracker × Except PrivacyError PedersenCommit :=
  match tracker.note_and_check blind ctx.no_r_reuse with
  | (t, some e) => (t, .error e)
  | (t, none) =>
    match PedersenPlaceholder.commit Hs ctx.hash_id msg blind with
    | .error s => (t, .error (.Internal s))
    | .ok commitment =>
      match expand_to_point Hs ctx.hash_id commitment with
      | .error e => (t, .error e)
      | .ok (cx, cy) => (t, .ok { cx := cx, cy := cy })

/-- Source `PedersenCtx::open`: recompute (Cx, Cy) and compare, reporting
`InvalidCurvePoint` on mismatch. -/
def PedersenCtx.openComm (Hs : Hashers) (ctx : PedersenCtx)
    (msg blind cx cy : List Nat) : Except PrivacyError Bool :=
  match PedersenPlaceholder.commit Hs ctx.hash_id msg blind with
  | .error s => .error (.Internal s)
  | .ok commitment =>
    match expand_to_point Hs ctx.hash_id commitment with
    | .error e => .error e
    | .ok (ecx, ecy) =>
      if cx ≠ ecx ∨ cy ≠ ecy then .error .InvalidCurvePoint
      else .ok true

/-- Source `RangeCheck::check_u64` (`bundles/src/range.rs` and
`zkprov_bundles/range`): `!mask_ok` is the u64 complement. -/
def RangeCheck.check_u64 (v : Nat) (k : Nat) : Except PrivacyError Unit :=
  if ¬ (1 ≤ k ∧ k ≤ 64) then .error .RangeCheckOverflow
  else
    let mask_ok := if k = 64 then 2 ^ 64 - 1 else 2 ^ k - 1
    if v &&& ((2 ^ 64 - 1) ^^^ mask_ok) ≠ 0 then .error .RangeCheckOverflow
    else .ok ()

/-! ## Validation engine (`corelib/src/validation.rs`)

`serde_json` contexts are abstracted to the operation string they carry;
`Instant`-based elapsed time is not modelled (`time_ms` keeps its prior
value in `finalize`). -/

/-- Source `pub enum ValidationErrorCode`. -/
inductive ValidationErrorCode where
  | InvalidCurvePoint
  | BlindingReuse
  | RangeCheckOverflow
  | UnsupportedCurve
  | KeccakNotEnabled
  | PedersenNotEnabled
  | CurveNotAllowed
deriving DecidableEq, Repr

/-- Source `pub struct ValidationError` (context reduced to its operation
tag). -/
structure ValidationError where
  code : ValidationErrorCode
  msg : String
  context : String
deriving DecidableEq, Repr

/-- Source `pub struct ValidationWarning`. -/
structure ValidationWarning where
  code : String
  msg : String
  context : String
deriving DecidableEq, Repr

/-- Source `pub struct ReportMeta`. -/
structure ReportMeta where
  backend_id : String
  profile_id : String
  hash_id : String
  curve : Option String
  time_ms : Nat
deriving DecidableEq, Repr

/-- Source `pub struct ValidationReport`. -/
structure ValidationReport where
  ok : Bool
  commit_passed : Bool
  errors : List ValidationError
  warnings : List ValidationWarning
  meta : ReportMeta
deriving DecidableEq, Repr

/-- Source `ValidationReport::new_ok`. -/
def ValidationReport.new_ok (meta : ReportMeta) : ValidationReport :=
  { ok := true, commit_passed := true, errors := [], warnings := [],
    meta := meta }

/-- Source `ValidationReport::push_error`. -/
def ValidationReport.push_error (r : ValidationReport)
    (e : ValidationError) : ValidationReport :=
  { r with ok := false, errors := r.errors ++ [e] }

/-- Source `ValidationReport::set_commit_passed`. -/
def ValidationReport.set_commit_passed (r : ValidationReport)
    (passed : Bool) : ValidationReport :=
  { r with commit_passed := passed, ok := if passed then r.ok else false }

/-- Source `pub struct ValidationConfig`. -/
structure ValidationConfig where
  pedersen_enabled : Bool
  allowed_curves : List String
  keccak_enabled : Bool
  no_r_reuse : Bool
  requested_curve : Option String
  requested_hash : Option String
  pedersen_required : Bool
deriving DecidableEq, Repr

/-- Source `matches_ignore_ascii_case` (`str::eq_ignore_ascii_case`). -/
def matches_ignore_ascii_case (value expected : String) : Bool :=
  value.data.map asciiLowerChar = expected.data.map asciiLowerChar

/-- Source `ValidationConfig::from_bindings`. -/
def ValidationConfig.from_bindings (b : Bindings) : ValidationConfig :=
  { pedersen_enabled := b.commitments.pedersen
    allowed_curves := match b.commitments.curve with
      | some curve => [curve]
      | none => []
    keccak_enabled := true
    no_r_reuse := b.commitments.no_r_reuse.getD false
    requested_curve := b.commitments.curve
    requested_hash := b.hash_id_for_commitments
    pedersen_required := b.commitments.pedersen }

/-- Source `ValidationConfig::keccak_requested`. -/
def ValidationConfig.keccak_requested (cfg : ValidationConfig) : Bool :=
  match cfg.requested_hash with
  | some h =>
    matches_ignore_ascii_case h "keccak" || matches_ignore_ascii_case h "keccak256"
  | none => false

/-- Validator state (`pub struct Validator`): configuration, optional
Pedersen context, blinding tracker, report under construction. -/
structure VState where
  cfg : ValidationConfig
  ped : Option PedersenCtx
  blinds : BlindingTracker
  report : ValidationReport
deriving DecidableEq, Repr

/-- Source `Validator::map_privacy_error`. -/
def map_privacy_error : PrivacyError → ValidationErrorCode
  | .InvalidCurvePoint => .InvalidCurvePoint
  | .BlindingReuse => .BlindingReuse
  | .RangeCheckOverflow => .RangeCheckOverflow
  | .UnsupportedCurve => .CurveNotAllowed
  | .Internal _ => .UnsupportedCurve

/-- Source `Validator::push_privacy_error`. -/
def VState.push_privacy_error (s : VState) (err : PrivacyError)
    (context : String) : VState :=
  { s with report := (s.report.push_error
        ⟨map_privacy_error err, err.toMessage, context⟩) }

/-- Source `Validator::new`. -/
def Validator.new (b : Bindings) : VState :=
  let cfg := ValidationConfig.from_bindings b
  let meta : ReportMeta :=
    { backend_id := "", profile_id := "",
      hash_id := cfg.requested_hash.getD "blake3",
      curve := cfg.requested_curve, time_ms := 0 }
  let report := ValidationReport.new_ok meta
  let base : VState :=
    { cfg := cfg, ped := none, blinds := BlindingTracker.new,
      report := report }
  if cfg.pedersen_required then
    match PedersenCtx.from_bindings b with
    | .ok ctx => { base with ped := some ctx }
    | .error err =>
      base.push_privacy_error err "init"
  else base

/-- Source `Validator::check_commit_point`. -/
def VState.check_commit_point (Hs : Hashers) (s : VState)
    (msg r : List Nat) : VState :=
  if ¬ s.cfg.pedersen_enabled then
    { s with report := (s.report.push_error
        ⟨.PedersenNotEnabled, "pedersen commitments disabled by configuration", "check_commit_point"⟩) }
  else if (match s.cfg.requested_curve with
      | some curve =>
        !s.cfg.allowed_curves.isEmpty &&
        !s.cfg.allowed_curves.any
            (fun allowed => matches_ignore_ascii_case allowed curve)
      | none => false) then
    { s with report := (s.report.push_error
        ⟨.CurveNotAllowed, "curve not allowed by configuration", "check_commit_point"⟩) }
  else if s.cfg.keccak_requested ∧ ¬ s.cfg.keccak_enabled then
    { s with report := (s.report.push_error
        ⟨.KeccakNotEnabled, "keccak commitments disabled by configuration", "check_commit_point"⟩) }
  else
    match s.ped with
    | none => s
    | some ctx =>
      match PedersenCtx.commit Hs ctx s.blinds msg r with
      | (t, .ok commit) =>
        let s1 := { s with blinds := t }
        match PedersenCtx.openComm Hs ctx msg r commit.cx commit.cy with
        | .error err => s1.push_privacy_error err "check_commit_point"
        | .ok _ => s1
      | (t, .error err) =>
        ({ s with blinds := t }).push_privacy_error err "check_commit_point"

/-- Source `Validator::check_commit_point_with_pair`. -/
def VState.check_commit_point_with_pair (Hs : Hashers) (s : VState)
    (msg r cx cy : List Nat) : VState :=
  if ¬ s.cfg.pedersen_enabled then
    { s with report := (s.report.push_error
        ⟨.PedersenNotEnabled, "pedersen commitments disabled by configuration", "check_commit_point"⟩) }
  else if (match s.cfg.requested_curve with
      | some curve =>
        !s.cfg.allowed_curves.isEmpty &&
        !s.cfg.allowed_curves.any
            (fun allowed => matches_ignore_ascii_case allowed curve)
      | none => false) then
    { s with report := (s.report.push_error
        ⟨.CurveNotAllowed, "curve not allowed by configuration", "check_commit_point"⟩) }
  else if s.cfg.keccak_requested ∧ ¬ s.cfg.keccak_enabled then
    { s with report := (s.report.push_error
        ⟨.KeccakNotEnabled, "keccak commitments disabled by configuration", "check_commit_point"⟩) }
  else
    match s.ped with
    | none => s
    | some ctx =>
      match PedersenCtx.openComm Hs ctx msg r cx cy with
      | .error err => s.push_privacy_error err "check_commit_point"
      | .ok _ => s

/-- Source `Validator::check_r_reuse`. -/
def VState.check_r_reuse (s : VState) (r : List Nat) : VState :=
  if ¬ s.cfg.pedersen_enabled then
    { s with report := (s.report.push_error
        ⟨.PedersenNotEnabled, "pedersen commitments disabled by configuration", "check_r_reuse"⟩) }
  else
    match s.ped with
    | none => s
    | some ctx =>
      match s.blinds.note_and_check r ctx.no_r_reuse with
      | (t, some err) =>
        ({ s with blinds := t }).push_privacy_error err "check_r_reuse"
      | (t, none) => { s with blinds := t }

/-- Source `Validator::check_range_u64`. -/
def VState.check_range_u64 (s : VState) (v k : Nat) : VState :=
  match RangeCheck.check_u64 v k with
  | .error err => s.push_privacy_error err "check_range_u64"
  | .ok _ => s

/-- Source `COMMIT_ERROR_CODES` — the commit-affecting set. -/
def COMMIT_ERROR_CODES : List ValidationErrorCode :=
  [.InvalidCurvePoint, .BlindingReuse, .RangeCheckOverflow,
   .CurveNotAllowed, .PedersenNotEnabled, .KeccakNotEnabled]

/-- Source `Validator::finalize` (elapsed-time bookkeeping elided). -/
def Validator.finalize (s : VState) : ValidationReport :=
  s.report.set_commit_passed
    (!(s.report.errors.any (fun err => COMMIT_ERROR_CODES.contains err.code)))

/-- One observable check call on a validator. -/
inductive VCall where
  | commitPoint (msg r : List Nat)
  | commitPointWithPair (msg r cx cy : List Nat)
  | rReuse (r : List Nat)
  | rangeU64 (v k : Nat)
deriving DecidableEq, Repr

/-- Dispatch one call. -/
def applyCall (Hs : Hashers) (s : VState) : VCall → VState
  | .commitPoint msg r => s.check_commit_point Hs msg r
  | .commitPointWithPair msg r cx cy =>
    s.check_commit_point_with_pair Hs msg r cx cy
  | .rReuse r => s.check_r_reuse r
  | .rangeU64 v k => s.check_range_u64 v k

/-- Run a sequence of check calls. -/
def runCalls (Hs : Hashers) (s : VState) (calls : List VCall) : VState :=
  calls.foldl (applyCall Hs) s

/-! ## Merkle roots (`corelib/src/crypto/merkle.rs`) -/

/-- Source `leaf_hash`: H("LEAF" ‖ data). -/
def leaf_hash (H : List Nat → List Nat) (data : List Nat) : List Nat :=
  hash_labeled H "LEAF" data

/-- Source `node2_hash`: H("NODE2" ‖ left ‖ right). -/
def node2_hash (H : List Nat → List Nat) (left right : List Nat) : List Nat :=
  H (strBytes "NODE2" ++ left ++ right)

/-- Source `node4_hash`: H("NODE4" ‖ c0 ‖ c1 ‖ c2 ‖ c3). -/
def node4_hash (H : List Nat → List Nat) (c0 c1 c2 c3 : List Nat) : List Nat :=
  H (strBytes "NODE4" ++ c0 ++ c1 ++ c2 ++ c3)

/-- One level-combining pass of `root_arity2` (chunks of 2, odd chunk
duplicated). -/
def nextLevel2 (H : List Nat → List Nat) : List (List Nat) → List (List Nat)
  | [] => []
  | [a] => [node2_hash H a a]
  | a :: b :: rest => node2_hash H a b :: nextLevel2 H rest

/-- One level-combining pass of `root_arity4` (chunks of 4, short chunks
padded by duplicating the last element). -/
def nextLevel4 (H : List Nat → List Nat) : List (List Nat) → List (List Nat)
  | [] => []
  | [a] => [node4_hash H a a a a]
  | [a, b] => [node4_hash H a b b b]
  | [a, b, c] => [node4_hash H a b c c]
  | a :: b :: c :: d :: rest => node4_hash H a b c d :: nextLevel4 H rest

/-- Source loop of `root_arity2`: combine levels until one digest is
left. -/
def rootLoop2 (H : List Nat → List Nat) (level : List (List Nat)) :
    Option (List Nat) :=
  match level with
  | [] => none
  | [d] => some d
  | a :: b :: rest => rootLoop2 H (nextLevel2 H (a :: b :: rest))
termination_by level.length
decreasing_by
  have hlen : ∀ l : List (List Nat), (nextLevel2 H l).length ≤ l.length := by
    intro l
    induction l using nextLevel2.induct H <;> (simp [nextLevel2, *]; try omega)
  simp only [nextLevel2, List.length_cons]
  have := hlen rest
  omega

/-- Source loop of `root_arity4`. -/
def rootLoop4 (H : List Nat → List Nat) (level : List (List Nat)) :
    Option (List Nat) :=
  match level with
  | [] => none
  | [d] => some d
  | a :: b :: rest => rootLoop4 H (nextLevel4 H (a :: b :: rest))
termination_by level.length
decreasing_by
  have hlen : ∀ l : List (List Nat), (nextLevel4 H l).length ≤ l.length := by
    intro l
    induction l using nextLevel4.induct H <;> (simp [nextLevel4, *]; try omega)
  cases rest with
  | nil => simp [nextLevel4]
  | cons c rest2 =>
    cases rest2 with
    | nil => simp [nextLevel4]
    | cons d rest3 =>
      have := hlen rest3
      simp [nextLevel4]
      omega

/-- Source `root_arity2` (the empty-input `assert!` is modelled as
`none`). -/
def root_arity2 (H : List Nat → List Nat) (leaves : List (List Nat)) :
    Option (List Nat) :=
  rootLoop2 H (leaves.map (leaf_hash H))

/-- Source `root_arity4`. -/
def root_arity4 (H : List Nat → List Nat) (leaves : List (List Nat)) :
    Option (List Nat) :=
  rootLoop4 H (leaves.map (leaf_hash H))

/-! ## Concrete instances used by the witnesses -/

/-- Concrete stand-in digest core (identity on byte lists). -/
def demoHash (l : List Nat) : List Nat := l

/-- Hasher bundle built from `demoHash`. -/
def demoHashers : Hashers := ⟨demoHash, demoHash, demoHash, demoHash⟩

/-- Concrete stand-in 64-bit digest core: base-256 fold with offset, so
distinct short byte strings map to distinct values. -/
def demoH64 (l : List Nat) : Nat := l.foldl (fun a b => a * 256 + b + 1) 1

/-- The toy AIR of the spec's scenario A. -/
def toyAir : AirProgram :=
  { meta := ⟨"toy_balance", "Prime254", .Blake3, none, none, none⟩
    columns := ⟨8, 2, 1⟩
    constraints := ⟨2, 1⟩
    rows_hint := some 16
    public_inputs := []
    commitments := none }

/-- The config of the spec's scenario A. -/
def cfgToy : Config :=
  { backend_id := "native@0.0", field := "Prime254", hash := "blake3",
    fri_arity := 2, recursion_needed := false, profile_id := "balanced" }

/-- Scenario A config with the `secure` profile instead. -/
def cfgToySecure : Config := { cfgToy with profile_id := "secure" }

/-- Proof blob produced for the toy scenario under `demoH64`. -/
def proofToy : List Nat :=
  (native_prove demoH64 builtinRegistry (.ok builtin_profiles) cfgToy "{}"
    toyAir).toOption.getD []

/-- Bindings enabling Pedersen with the placeholder curve and the
no-reuse policy. -/
def bindToy : Bindings :=
  { commitments := ⟨true, some "placeholder", some true⟩
    hash_id_for_commitments := some "blake3" }

/-- Header emitted by a successful `native_prove`. -/
def nativeHeader (h64 : List Nat → Nat) (cfg : Config) (inputs : String) :
    ProofHeader :=
  ⟨Proof.hash64 h64 "BACKEND" (strBytes cfg.backend_id),
   Proof.hash64 h64 "PROFILE" (strBytes cfg.profile_id),
   Proof.hash64 h64 "PUBIO" (strBytes inputs), 8⟩

/-- Proof blob emitted by a successful `native_prove`. -/
def nativeProofBytes (h64 : List Nat → Nat) (cfg : Config) (inputs : String)
    (air : AirProgram) : List Nat :=
  assemble_proof (nativeHeader h64 cfg inputs)
    (toLeBytes8 (fake_trace_root_u64 h64 air inputs))

/-- Spec-side error taxonomy of §7 (*Capability/config*), which names a
dedicated `UnknownBackend` code alongside `Mismatch(detail)`. -/
inductive SpecCapCode where
  | UnknownBackend
  | FieldUnsupported
  | HashUnsupported
  | FriArityUnsupported
  | RecursionUnavailable
  | ProfileNotFound
  | Mismatch (detail : String)
deriving DecidableEq, Repr

/-- Namewise rendering of the source's `CapabilityError` into the spec's
taxonomy (the source has no `UnknownBackend` variant to map to). -/
def capCodeOf : CapabilityError → SpecCapCode
  | .Mismatch d => .Mismatch d
  | .FieldUnsupported _ _ => .FieldUnsupported
  | .HashUnsupported _ _ => .HashUnsupported
  | .FriArityUnsupported _ _ => .FriArityUnsupported
  | .RecursionUnavailable _ => .RecursionUnavailable
  | .ProfileNotFound _ => .ProfileNotFound

/-- A config whose backend id is not registered. -/
def cfgNope : Config := { cfgToy with backend_id := "nope" }

/-- Decidable equality for `Except` results (used to evaluate the model on
concrete inputs). -/
instance {ε α : Type} [DecidableEq ε] [DecidableEq α] :
    DecidableEq (Except ε α) := fun a b =>
  match a, b with
  | .error e, .error f =>
    if h : e = f then .isTrue (by rw [h]) else .isFalse (by simp [h])
  | .error _, .ok _ => .isFalse (by simp)
  | .ok _, .error _ => .isFalse (by simp)
  | .ok x, .ok y =>
    if h : x = y then .isTrue (by rw [h]) else .isFalse (by simp [h])

/-- Commitment produced for the concrete witness inputs. -/
def pedC : List Nat :=
  (PedersenPlaceholder.commit demoHashers "blake3" [1] [2]).toOption.getD []

/-- Invariant maintained by the validator's report: a report still marked
ok has recorded no error. -/
def ReportInv (r : ValidationReport) : Prop := r.ok = true → r.errors = []

/-! ## Theorems -/

theorem toLeBytes4_length (n : Nat) : (toLeBytes4 n).length = 4 := rfl

theorem toLeBytes8_length (n : Nat) : (toLeBytes8 n).length = 8 := rfl

theorem fromLe_toLe4 (n : Nat) (hn : n < 2 ^ 32) :
    fromLeBytes (toLeBytes4 n) = n := by
  simp only [toLeBytes4, fromLeBytes, List.foldr]
  omega

theorem fromLe_toLe8 (n : Nat) (hn : n < 2 ^ 64) :
    fromLeBytes (toLeBytes8 n) = n := by
  simp only [toLeBytes8, fromLeBytes, List.foldr]
  omega

theorem toLeBytes8_injOn {m n : Nat} (hm : m < 2 ^ 64) (hn : n < 2 ^ 64)
    (h : toLeBytes8 m = toLeBytes8 n) : m = n := by
  have := congrArg fromLeBytes h
  rwa [fromLe_toLe8 m hm, fromLe_toLe8 n hn] at this

theorem ProofHeader.encode_length (h : ProofHeader) : h.encode.length = 40 := by
  simp [ProofHeader.encode, MAGIC, toLeBytes4, toLeBytes8]

theorem slice_drop4 (r : List Nat) : (MAGIC ++ r).drop 4 = r :=
  List.drop_left' rfl

theorem slice_drop8 (r : List Nat) :
    (MAGIC ++ (toLeBytes4 1 ++ r)).drop 8 = r := by
  rw [← List.append_assoc]
  exact List.drop_left' rfl

theorem slice_drop16 (a : Nat) (r : List Nat) :
    (MAGIC ++ (toLeBytes4 1 ++ (toLeBytes8 a ++ r))).drop 16 = r := by
  rw [← List.append_assoc, ← List.append_assoc]
  exact List.drop_left' rfl

theorem slice_drop24 (a b : Nat) (r : List Nat) :
    (MAGIC ++ (toLeBytes4 1 ++ (toLeBytes8 a ++ (toLeBytes8 b ++ r)))).drop 24
      = r := by
  rw [← List.append_assoc, ← List.append_assoc, ← List.append_assoc]
  exact List.drop_left' rfl

theorem slice_drop32 (a b c : Nat) (r : List Nat) :
    (MAGIC ++ (toLeBytes4 1 ++ (toLeBytes8 a ++ (toLeBytes8 b ++
      (toLeBytes8 c ++ r))))).drop 32 = r := by
  rw [← List.append_assoc, ← List.append_assoc, ← List.append_assoc,
    ← List.append_assoc]
  exact List.drop_left' rfl

theorem slice_drop40 (a b c d : Nat) (r : List Nat) :
    (MAGIC ++ (toLeBytes4 1 ++ (toLeBytes8 a ++ (toLeBytes8 b ++
      (toLeBytes8 c ++ (toLeBytes8 d ++ r)))))).drop 40 = r := by
  rw [← List.append_assoc, ← List.append_assoc, ← List.append_assoc,
    ← List.append_assoc, ← List.append_assoc]
  exact List.drop_left' rfl

theorem encode_take4 (h : ProofHeader) (rest : List Nat) :
    (h.encode ++ rest).take 4 = MAGIC := by
  simp only [ProofHeader.encode, List.append_assoc]
  exact List.take_left' rfl

theorem encode_drop4_take4 (h : ProofHeader) (rest : List Nat) :
    ((h.encode ++ rest).drop 4).take 4 = toLeBytes4 1 := by
  simp only [ProofHeader.encode, List.append_assoc]
  rw [slice_drop4]
  exact List.take_left' rfl

theorem encode_drop8_take8 (h : ProofHeader) (rest : List Nat) :
    ((h.encode ++ rest).drop 8).take 8 = toLeBytes8 h.backend_id_hash := by
  simp only [ProofHeader.encode, List.append_assoc]
  rw [slice_drop8]
  exact List.take_left' rfl

theorem encode_drop16_take8 (h : ProofHeader) (rest : List Nat) :
    ((h.encode ++ rest).drop 16).take 8 = toLeBytes8 h.profile_id_hash := by
  simp only [ProofHeader.encode, List.append_assoc]
  rw [slice_drop16]
  exact List.take_left' rfl

theorem encode_drop24_take8 (h : ProofHeader) (rest : List Nat) :
    ((h.encode ++ rest).drop 24).take 8 = toLeBytes8 h.pubio_hash := by
  simp only [ProofHeader.encode, List.append_assoc]
  rw [slice_drop24]
  exact List.take_left' rfl

theorem encode_drop32_take8 (h : ProofHeader) (rest : List Nat) :
    ((h.encode ++ rest).drop 32).take 8 = toLeBytes8 h.body_len := by
  simp only [ProofHeader.encode, List.append_assoc]
  rw [slice_drop32]
  exact List.take_left' rfl

theorem encode_drop40 (h : ProofHeader) (rest : List Nat) :
    (h.encode ++ rest).drop 40 = rest :=
  List.drop_left' h.encode_length

/-- Core round-trip fact: decoding the 40-byte prefix of an encoded header
(with anything appended) recovers the header. -/
theorem decode_encode_append (h : ProofHeader) (hw : h.WF) (rest : List Nat) :
    ProofHeader.decode ((h.encode ++ rest).take 40) = .ok h := by
  obtain ⟨h1, h2, h3, h4⟩ := hw
  have htake : (h.encode ++ rest).take 40 = h.encode :=
    List.take_left' h.encode_length
  have hnil : h.encode = h.encode ++ [] := by simp
  have c1 : ¬ h.encode.length < 40 := by rw [h.encode_length]; omega
  have c2 : h.encode.take 4 = MAGIC := by
    rw [hnil]; exact encode_take4 h []
  have c3 : (h.encode.drop 4).take 4 = toLeBytes4 1 := by
    rw [hnil]; exact encode_drop4_take4 h []
  have c4 : (h.encode.drop 8).take 8 = toLeBytes8 h.backend_id_hash := by
    rw [hnil]; exact encode_drop8_take8 h []
  have c5 : (h.encode.drop 16).take 8 = toLeBytes8 h.profile_id_hash := by
    rw [hnil]; exact encode_drop16_take8 h []
  have c6 : (h.encode.drop 24).take 8 = toLeBytes8 h.pubio_hash := by
    rw [hnil]; exact encode_drop24_take8 h []
  have c7 : (h.encode.drop 32).take 8 = toLeBytes8 h.body_len := by
    rw [hnil]; exact encode_drop32_take8 h []
  rw [htake, ProofHeader.decode, if_neg c1, c2, c3, c4, c5, c6, c7,
    fromLe_toLe8 _ h1, fromLe_toLe8 _ h2, fromLe_toLe8 _ h3,
    fromLe_toLe8 _ h4]
  norm_num [fromLeBytes, toLeBytes4]

theorem validate_config_eq_spec (caps : String → Option Capabilities)
    (profilesRes : Except String (List Profile)) (cfg : Config) :
    validate_config caps profilesRes cfg
      = validateConfigSpec caps profilesRes cfg := by
  unfold validate_config validateConfigSpec orderedConfigChecks
  cases caps cfg.backend_id with
  | none => rfl
  | some c =>
    cases profilesRes with
    | error e =>
      simp only [firstViolation]
      split_ifs <;> simp_all
    | ok profiles =>
      simp only [firstViolation]
      split_ifs <;> simp_all

theorem Proof.hash64_lt (h64 : List Nat → Nat) (label : String) (data : List Nat) :
    Proof.hash64 h64 label data < 2 ^ 64 :=
  Nat.mod_lt _ (by norm_num)

theorem fake_trace_root_eq_spec (h64 : List Nat → Nat) (air : AirProgram)
    (inputs_json : String) :
    fake_trace_root_u64 h64 air inputs_json
      = traceRootSpec h64 air inputs_json := rfl

theorem mixStep_lt (acc h : Nat) (hacc : acc < 2 ^ 64) (hh : h < 2 ^ 64) :
    mixStep acc h < 2 ^ 64 := by
  apply Nat.xor_lt_two_pow hacc
  apply Nat.xor_lt_two_pow
  · apply Nat.or_lt_two_pow
    · exact Nat.mod_lt _ (by norm_num)
    · calc h >>> (64 - 13) ≤ h := by
            rw [Nat.shiftRight_eq_div_pow]; exact Nat.div_le_self _ _
        _ < 2 ^ 64 := hh
  · exact Nat.mod_lt _ (by norm_num)

theorem fake_trace_root_lt (h64 : List Nat → Nat) (air : AirProgram)
    (inputs_json : String) :
    fake_trace_root_u64 h64 air inputs_json < 2 ^ 64 := by
  unfold fake_trace_root_u64
  repeat
    apply mixStep_lt _ _ _ (Proof.hash64_lt _ _ _)
  norm_num

theorem nativeHeader_WF (h64 : List Nat → Nat) (cfg : Config)
    (inputs : String) : (nativeHeader h64 cfg inputs).WF :=
  ⟨Proof.hash64_lt _ _ _, Proof.hash64_lt _ _ _, Proof.hash64_lt _ _ _,
    by norm_num [nativeHeader]⟩

theorem nativeProofBytes_length (h64 : List Nat → Nat) (cfg : Config)
    (inputs : String) (air : AirProgram) :
    (nativeProofBytes h64 cfg inputs air).length = 48 := by
  simp [nativeProofBytes, assemble_proof, ProofHeader.encode_length,
    toLeBytes8_length]

theorem native_prove_eq (h64 : List Nat → Nat)
    (caps : String → Option Capabilities)
    (pE : Except String (List Profile)) (cfg : Config) (inputs : String)
    (air : AirProgram) (hv : validate_config caps pE cfg = .ok ()) :
    native_prove h64 caps pE cfg inputs air
      = .ok (nativeProofBytes h64 cfg inputs air) := by
  unfold native_prove
  rw [hv]
  rfl

/-- Behaviour of `native_verify` on an assembled blob whose header is
well-formed and whose body length matches. -/
theorem native_verify_assembled (h64 : List Nat → Nat)
    (caps : String → Option Capabilities)
    (pE : Except String (List Profile)) (cfg2 : Config) (inputs2 : String)
    (air2 : AirProgram) (hdr : ProofHeader) (hwf : hdr.WF)
    (body : List Nat) (hbl : body.length = hdr.body_len) :
    native_verify h64 caps pE cfg2 inputs2 air2 (assemble_proof hdr body)
      = match validate_config caps pE cfg2 with
        | .error e => .error (.cap e)
        | .ok _ =>
          if Proof.hash64 h64 "BACKEND" (strBytes cfg2.backend_id)
              ≠ hdr.backend_id_hash then .error (.msg "backend id hash mismatch")
          else if Proof.hash64 h64 "PROFILE" (strBytes cfg2.profile_id)
              ≠ hdr.profile_id_hash then .error (.msg "profile id hash mismatch")
          else if Proof.hash64 h64 "PUBIO" (strBytes inputs2)
              ≠ hdr.pubio_hash then .error (.msg "public io hash mismatch")
          else if body ≠ toLeBytes8 (fake_trace_root_u64 h64 air2 inputs2) then
            .error (.msg "fake trace root mismatch")
          else .ok true := by
  unfold native_verify assemble_proof
  cases validate_config caps pE cfg2 with
  | error e => rfl
  | ok u =>
    cases u
    have hnot : ¬ (hdr.encode ++ body).length < 40 := by
      rw [List.length_append, ProofHeader.encode_length]; omega
    simp only [if_neg hnot, decode_encode_append hdr hwf body, encode_drop40]
    rw [if_neg (show ¬ (body.length ≠ hdr.body_len) from by omega)]

theorem native_verify_roundtrip (h64 : List Nat → Nat)
    (caps : String → Option Capabilities)
    (pE : Except String (List Profile)) (cfg : Config) (inputs : String)
    (air : AirProgram) (hv : validate_config caps pE cfg = .ok ()) :
    native_verify h64 caps pE cfg inputs air
      (nativeProofBytes h64 cfg inputs air) = .ok true := by
  unfold nativeProofBytes
  rw [native_verify_assembled h64 caps pE cfg inputs air _
    (nativeHeader_WF h64 cfg inputs) _ (toLeBytes8_length _), hv]
  simp [nativeHeader]

theorem native_verify_ok_implies (h64 : List Nat → Nat)
    (caps : String → Option Capabilities)
    (pE : Except String (List Profile)) (cfg cfg2 : Config)
    (inputs inputs2 : String) (air air2 : AirProgram)
    (h : native_verify h64 caps pE cfg2 inputs2 air2
      (nativeProofBytes h64 cfg inputs air) = .ok true) :
    Proof.hash64 h64 "BACKEND" (strBytes cfg2.backend_id)
        = Proof.hash64 h64 "BACKEND" (strBytes cfg.backend_id) ∧
    Proof.hash64 h64 "PROFILE" (strBytes cfg2.profile_id)
        = Proof.hash64 h64 "PROFILE" (strBytes cfg.profile_id) ∧
    Proof.hash64 h64 "PUBIO" (strBytes inputs2)
        = Proof.hash64 h64 "PUBIO" (strBytes inputs) ∧
    fake_trace_root_u64 h64 air2 inputs2
        = fake_trace_root_u64 h64 air inputs := by
  rw [nativeProofBytes, native_verify_assembled h64 caps pE cfg2 inputs2 air2
    _ (nativeHeader_WF h64 cfg inputs) _ (toLeBytes8_length _)] at h
  cases hv2 : validate_config caps pE cfg2 with
  | error e => rw [hv2] at h; exact absurd h (by simp)
  | ok u =>
    cases u
    rw [hv2] at h
    by_cases hb : Proof.hash64 h64 "BACKEND" (strBytes cfg2.backend_id)
        ≠ (nativeHeader h64 cfg inputs).backend_id_hash
    · rw [if_pos hb] at h; exact absurd h (by simp)
    · rw [if_neg hb] at h
      by_cases hpp : Proof.hash64 h64 "PROFILE" (strBytes cfg2.profile_id)
          ≠ (nativeHeader h64 cfg inputs).profile_id_hash
      · rw [if_pos hpp] at h; exact absurd h (by simp)
      · rw [if_neg hpp] at h
        by_cases hio : Proof.hash64 h64 "PUBIO" (strBytes inputs2)
            ≠ (nativeHeader h64 cfg inputs).pubio_hash
        · rw [if_pos hio] at h; exact absurd h (by simp)
        · rw [if_neg hio] at h
          by_cases hr : toLeBytes8 (fake_trace_root_u64 h64 air inputs)
              ≠ toLeBytes8 (fake_trace_root_u64 h64 air2 inputs2)
          · rw [if_pos hr] at h; exact absurd h (by simp)
          · refine ⟨not_not.mp hb, not_not.mp hpp, not_not.mp hio, ?_⟩
            exact (toLeBytes8_injOn (fake_trace_root_lt _ _ _)
              (fake_trace_root_lt _ _ _) (not_not.mp hr)).symm

/-- C3: `ProofHeader::encode` is total and always yields exactly 40 bytes,
and for every header with `u64`-sized fields,
`decode(encode(H))` succeeds and returns `H`. -/
theorem C3_header_encode_decode_roundtrip (h : ProofHeader) :
    h.encode.length = 40 ∧
    (h.WF → ProofHeader.decode h.encode = .ok h) := by
  refine ⟨h.encode_length, fun hw => ?_⟩
  have h1 := decode_encode_append h hw []
  rw [List.append_nil] at h1
  have ht : h.encode.take 40 = h.encode := by
    rw [← h.encode_length]
    exact List.take_length _
  rwa [ht] at h1

/-- Witness for C3 at a concrete header. -/
theorem C3_header_encode_decode_roundtrip_witness :
    ProofHeader.WF ⟨1, 2, 3, 8⟩ ∧
    ProofHeader.decode (ProofHeader.encode ⟨1, 2, 3, 8⟩) = .ok ⟨1, 2, 3, 8⟩ :=
  ⟨by decide, (C3_header_encode_decode_roundtrip ⟨1, 2, 3, 8⟩).2 (by decide)⟩

/-- C2: for every accepted config, the blob emitted by `native_prove` is
the 40-byte header (with `body_len = 8`) followed by the little-endian
bytes of the spec's accumulator: starting from 0, for the six fields in
the fixed order AIR.NAME, AIR.FIELD, AIR.HASH, TRACE.ROWS, TRACE.COLS,
IO.JSON, update `acc := acc XOR (h <<< 13) XOR (h · 0x9e3779b97f4a7c15)`
with `h` the truncated 64-bit label‖bytes digest, TRACE.ROWS/COLS taken as
little-endian u32 of the derived `TraceShape` (rows defaulting to `2^16`
absent `rows_hint`). -/
theorem C2_native_prove_body_is_spec_accumulator (h64 : List Nat → Nat)
    (caps : String → Option Capabilities)
    (pE : Except String (List Profile)) (cfg : Config) (inputs : String)
    (air : AirProgram) (hv : validate_config caps pE cfg = .ok ()) :
    native_prove h64 caps pE cfg inputs air
      = .ok (assemble_proof
          ⟨Proof.hash64 h64 "BACKEND" (strBytes cfg.backend_id),
           Proof.hash64 h64 "PROFILE" (strBytes cfg.profile_id),
           Proof.hash64 h64 "PUBIO" (strBytes inputs), 8⟩
          (toLeBytes8 (traceRootSpec h64 air inputs))) := by
  rw [native_prove_eq h64 caps pE cfg inputs air hv]
  rw [show traceRootSpec h64 air inputs
    = fake_trace_root_u64 h64 air inputs from
      (fake_trace_root_eq_spec h64 air inputs).symm]
  rfl

/-- Witness for C2 at the toy scenario. -/
theorem C2_native_prove_body_is_spec_accumulator_witness :
    validate_config builtinRegistry (.ok builtin_profiles) cfgToy
      = .ok () ∧
    native_prove demoH64 builtinRegistry (.ok builtin_profiles) cfgToy "{}"
        toyAir
      = .ok (assemble_proof
          ⟨Proof.hash64 demoH64 "BACKEND" (strBytes cfgToy.backend_id),
           Proof.hash64 demoH64 "PROFILE" (strBytes cfgToy.profile_id),
           Proof.hash64 demoH64 "PUBIO" (strBytes "{}"), 8⟩
          (toLeBytes8 (traceRootSpec demoH64 toyAir "{}"))) :=
  ⟨by decide,
    C2_native_prove_body_is_spec_accumulator demoH64 builtinRegistry
      (.ok builtin_profiles) cfgToy "{}" toyAir (by decide)⟩

/-- C1: for every config accepted by `validate_config` and every loaded
AIR, the blob produced by `native_prove` is exactly 48 bytes (40-byte
header plus 8-byte body) and `native_verify` accepts it with the same
arguments; and `native_verify` does not return true whenever the
verifying call differs — up to collisions of the truncated 64-bit digest,
stated as inequality of the corresponding digests — in `backend_id`,
`profile_id`, or the public-inputs JSON, or the AIR differs in the
trace-root proxy. -/
theorem C1_native_prove_verify_roundtrip_and_binding (h64 : List Nat → Nat)
    (caps : String → Option Capabilities)
    (pE : Except String (List Profile)) (cfg cfg2 : Config)
    (inputs inputs2 : String) (air air2 : AirProgram) (pf : List Nat)
    (hv : validate_config caps pE cfg = .ok ())
    (hp : native_prove h64 caps pE cfg inputs air = .ok pf) :
    pf.length = 48 ∧
    native_verify h64 caps pE cfg inputs air pf = .ok true ∧
    ((Proof.hash64 h64 "BACKEND" (strBytes cfg2.backend_id)
        ≠ Proof.hash64 h64 "BACKEND" (strBytes cfg.backend_id) ∨
      Proof.hash64 h64 "PROFILE" (strBytes cfg2.profile_id)
        ≠ Proof.hash64 h64 "PROFILE" (strBytes cfg.profile_id) ∨
      Proof.hash64 h64 "PUBIO" (strBytes inputs2)
        ≠ Proof.hash64 h64 "PUBIO" (strBytes inputs) ∨
      fake_trace_root_u64 h64 air2 inputs2
        ≠ fake_trace_root_u64 h64 air inputs) →
      native_verify h64 caps pE cfg2 inputs2 air2 pf ≠ .ok true) := by
  have hpf : pf = nativeProofBytes h64 cfg inputs air := by
    have := native_prove_eq h64 caps pE cfg inputs air hv
    rw [this] at hp
    exact (Except.ok.injEq _ _).mp hp.symm
  subst hpf
  refine ⟨nativeProofBytes_length h64 cfg inputs air,
    native_verify_roundtrip h64 caps pE cfg inputs air hv, ?_⟩
  intro hdiff hok
  have := native_verify_ok_implies h64 caps pE cfg cfg2 inputs inputs2
    air air2 hok
  rcases hdiff with hd | hd | hd | hd
  · exact hd this.1
  · exact hd this.2.1
  · exact hd this.2.2.1
  · exact hd this.2.2.2

/-- Witness for C1: toy scenario, with the profile-hash difference
(`balanced` vs `secure`) driving the rejection branch. -/
theorem C1_native_prove_verify_roundtrip_and_binding_witness :
    validate_config builtinRegistry (.ok builtin_profiles) cfgToy
      = .ok () ∧
    native_prove demoH64 builtinRegistry (.ok builtin_profiles) cfgToy "{}"
        toyAir = .ok proofToy ∧
    proofToy.length = 48 ∧
    native_verify demoH64 builtinRegistry (.ok builtin_profiles) cfgToy "{}"
        toyAir proofToy = .ok true ∧
    native_verify demoH64 builtinRegistry (.ok builtin_profiles) cfgToySecure
        "{}" toyAir proofToy ≠ .ok true := by
  have hv : validate_config builtinRegistry (.ok builtin_profiles) cfgToy
      = .ok () := by decide
  have hp : native_prove demoH64 builtinRegistry (.ok builtin_profiles)
      cfgToy "{}" toyAir = .ok proofToy := by decide
  have hmain := C1_native_prove_verify_roundtrip_and_binding demoH64
    builtinRegistry (.ok builtin_profiles) cfgToy cfgToySecure "{}" "{}"
    toyAir toyAir proofToy hv hp
  exact ⟨hv, hp, hmain.1, hmain.2.1,
    hmain.2.2 (Or.inr (Or.inl (by decide)))⟩

/-- C5 counterexample: on a config whose backend does not exist,
`validate_config` returns `Mismatch("unknown backend 'nope'")` — the
source's `CapabilityError` has no `UnknownBackend` variant, so the claimed
dedicated code is never produced. -/
theorem C5_counterexample_unknown_backend_is_mismatch :
    validate_config builtinRegistry (.ok builtin_profiles) cfgNope
      = .error (.Mismatch "unknown backend 'nope'") ∧
    capCodeOf (.Mismatch "unknown backend 'nope'")
      ≠ SpecCapCode.UnknownBackend := by
  constructor
  · decide
  · decide

/-- C5 (amended): `validate_config` performs its checks in the fixed order
backend existence, field, hash, fri_arity, recursion, profile, returning
the first violating code — `Mismatch("unknown backend '…'")` when the
backend does not exist (not a dedicated `UnknownBackend` code), then
`FieldUnsupported`, `HashUnsupported`, `FriArityUnsupported`,
`RecursionUnavailable`, `ProfileNotFound` — and returns `Ok(())` exactly
when every check passes. -/
theorem C5_validate_config_ordered_checks
    (caps : String → Option Capabilities)
    (pE : Except String (List Profile)) (cfg : Config) :
    validate_config caps pE cfg = validateConfigSpec caps pE cfg ∧
    (validate_config caps pE cfg = .ok () ↔
      ∃ c, caps cfg.backend_id = some c ∧
        c.fields.contains cfg.field = true ∧
        c.hashes.contains cfg.hash = true ∧
        c.fri_arities.contains cfg.fri_arity = true ∧
        (cfg.recursion_needed = true → c.recursion ≠ "none") ∧
        ∃ ps, pE = .ok ps ∧
          ps.any (fun p => p.id = cfg.profile_id) = true) := by
  refine ⟨validate_config_eq_spec caps pE cfg, ?_⟩
  cases hc : caps cfg.backend_id with
  | none => simp [validate_config, hc]
  | some c =>
    cases pE with
    | error e =>
      simp only [validate_config, hc]
      split_ifs <;> simp_all
    | ok ps =>
      simp only [validate_config, hc]
      split_ifs <;> simp_all

/-- C10: on a single-leaf input both Merkle roots are the bare leaf hash
(no node separator is applied), so the arity-2 and arity-4 roots
coincide. -/
theorem C10_single_leaf_roots_coincide (H : List Nat → List Nat)
    (l : List Nat) :
    root_arity2 H [l] = some (leaf_hash H l) ∧
    root_arity4 H [l] = some (leaf_hash H l) := by
  constructor
  · simp [root_arity2, rootLoop2]
  · simp [root_arity4, rootLoop4]

/-- Bit-level core of the range check: masking against the complement of
the low-k mask vanishes exactly on values below `2^k`. -/
theorem land_notmask_eq_zero_iff (v k : Nat) (hv : v < 2 ^ 64)
    (hk : k ≤ 64) :
    (v &&& ((2 ^ 64 - 1) ^^^ (2 ^ k - 1)) = 0) ↔ v < 2 ^ k := by
  constructor
  · intro h0
    apply Nat.lt_pow_two_of_testBit
    intro i hik
    by_cases hi : i < 64
    · have hb := congrArg (fun n => n.testBit i) h0
      simp only [Nat.testBit_land, Nat.zero_testBit] at hb
      have hm : ((2 ^ 64 - 1) ^^^ (2 ^ k - 1)).testBit i = true := by
        rw [Nat.testBit_xor, Nat.testBit_two_pow_sub_one,
          Nat.testBit_two_pow_sub_one]
        rw [decide_eq_true hi, decide_eq_false (Nat.not_lt.mpr hik)]
        rfl
      rw [hm, Bool.and_true] at hb
      exact hb
    · exact Nat.testBit_lt_two_pow (lt_of_lt_of_le hv
        (Nat.pow_le_pow_right (by norm_num) (Nat.le_of_not_lt hi)))
  · intro hvk
    apply Nat.eq_of_testBit_eq
    intro i
    rw [Nat.zero_testBit, Nat.testBit_land, Nat.testBit_xor,
      Nat.testBit_two_pow_sub_one, Nat.testBit_two_pow_sub_one]
    by_cases hik : i < k
    · rw [decide_eq_true hik, decide_eq_true (lt_of_lt_of_le hik hk)]
      simp
    · have hvb : v.testBit i = false := Nat.testBit_lt_two_pow
        (lt_of_lt_of_le hvk (Nat.pow_le_pow_right (by norm_num)
          (Nat.le_of_not_lt hik)))
      rw [hvb]
      simp

/-- C7: for `u64` values, `RangeCheck::check_u64(v, k)` succeeds exactly
when `1 ≤ k ≤ 64` and `v < 2^k` (every `u64` accepted at `k = 64`), and
returns `RangeCheckOverflow` in every other case. -/
theorem C7_range_check_u64_iff (v k : Nat) (hv : v < 2 ^ 64) :
    RangeCheck.check_u64 v k
      = if 1 ≤ k ∧ k ≤ 64 ∧ v < 2 ^ k then .ok ()
        else .error .RangeCheckOverflow := by
  unfold RangeCheck.check_u64
  by_cases hk : 1 ≤ k ∧ k ≤ 64
  · rw [if_neg (not_not_intro hk)]
    have hmask : (if k = 64 then 2 ^ 64 - 1 else 2 ^ k - 1) = 2 ^ k - 1 := by
      by_cases h64 : k = 64
      · rw [if_pos h64, h64]
      · rw [if_neg h64]
    simp only [hmask]
    by_cases hvk : v < 2 ^ k
    · rw [if_neg (not_not_intro
          ((land_notmask_eq_zero_iff v k hv hk.2).mpr hvk)),
        if_pos ⟨hk.1, hk.2, hvk⟩]
    · rw [if_pos (fun h => hvk ((land_notmask_eq_zero_iff v k hv hk.2).mp h)),
        if_neg (fun hcon => hvk hcon.2.2)]
  · rw [if_pos hk, if_neg (fun hcon => hk ⟨hcon.1, hcon.2.1⟩)]

/-- Witness for C7: `check_u64(16, 4)` yields `RangeCheckOverflow`. -/
theorem C7_range_check_u64_iff_witness :
    16 < 2 ^ 64 ∧
    RangeCheck.check_u64 16 4 = .error .RangeCheckOverflow := by
  refine ⟨by norm_num, ?_⟩
  rw [C7_range_check_u64_iff 16 4 (by norm_num)]
  norm_num

theorem ReportInv_push_error (r : ValidationReport) (e : ValidationError) :
    ReportInv (r.push_error e) := by
  intro hok
  simp [ValidationReport.push_error] at hok

theorem ReportInv_new (b : Bindings) : ReportInv (Validator.new b).report := by
  unfold Validator.new
  by_cases hp : (ValidationConfig.from_bindings b).pedersen_required = true
  · cases hfb : PedersenCtx.from_bindings b with
    | ok ctx =>
      simp only [hp, if_true, hfb]
      intro _
      rfl
    | error err =>
      simp only [hp, if_true, hfb]
      exact ReportInv_push_error _ _
  · simp only [if_neg hp]
    intro _
    rfl

theorem ReportInv_applyCall (Hs : Hashers) (s : VState) (c : VCall)
    (h : ReportInv s.report) : ReportInv (applyCall Hs s c).report := by
  cases c with
  | commitPoint msg r =>
    simp only [applyCall, VState.check_commit_point, VState.push_privacy_error]
    split
    · exact ReportInv_push_error _ _
    · split
      · exact ReportInv_push_error _ _
      · split
        · exact ReportInv_push_error _ _
        · split
          · exact h
          · split
            · split
              · exact ReportInv_push_error _ _
              · exact h
            · exact ReportInv_push_error _ _
  | commitPointWithPair msg r cx cy =>
    simp only [applyCall, VState.check_commit_point_with_pair,
      VState.push_privacy_error]
    split
    · exact ReportInv_push_error _ _
    · split
      · exact ReportInv_push_error _ _
      · split
        · exact ReportInv_push_error _ _
        · split
          · exact h
          · split
            · exact ReportInv_push_error _ _
            · exact h
  | rReuse r =>
    simp only [applyCall, VState.check_r_reuse, VState.push_privacy_error]
    split
    · exact ReportInv_push_error _ _
    · split
      · exact h
      · split
        · exact ReportInv_push_error _ _
        · exact h
  | rangeU64 v k =>
    simp only [applyCall, VState.check_range_u64, VState.push_privacy_error]
    split
    · exact ReportInv_push_error _ _
    · exact h

theorem ReportInv_runCalls (Hs : Hashers) (s : VState) (calls : List VCall)
    (h : ReportInv s.report) : ReportInv (runCalls Hs s calls).report := by
  induction calls generalizing s with
  | nil => exact h
  | cons c rest ih =>
    exact ih (applyCall Hs s c) (ReportInv_applyCall Hs s c h)

/-- C4: after any sequence of check calls, the finalized report satisfies
`ok → errors empty`, and `commit_passed` holds exactly when no recorded
error carries a code from the commit-affecting set
{InvalidCurvePoint, BlindingReuse, RangeCheckOverflow, CurveNotAllowed,
PedersenNotEnabled, KeccakNotEnabled}. -/
theorem C4_validator_finalize_invariants (Hs : Hashers) (b : Bindings)
    (calls : List VCall) :
    ((Validator.finalize (runCalls Hs (Validator.new b) calls)).ok = true →
      (Validator.finalize (runCalls Hs (Validator.new b) calls)).errors
        = []) ∧
    ((Validator.finalize (runCalls Hs (Validator.new b) calls)).commit_passed
        = true ↔
      ∀ e ∈ (Validator.finalize (runCalls Hs (Validator.new b)
          calls)).errors, e.code ∉ COMMIT_ERROR_CODES) := by
  have hinv : ReportInv (runCalls Hs (Validator.new b) calls).report :=
    ReportInv_runCalls Hs _ calls (ReportInv_new b)
  unfold Validator.finalize ValidationReport.set_commit_passed
  constructor
  · intro hok
    simp only at hok ⊢
    split at hok
    · exact hinv hok
    · exact absurd hok (by simp)
  · simp only
    rw [Bool.not_eq_true', List.any_eq_false]
    constructor
    · intro hall e he hmem
      exact (hall e he) (List.contains_iff_exists_mem_beq.mpr
        ⟨e.code, hmem, by simp⟩)
    · intro hall e he hc
      obtain ⟨a, ha, hba⟩ := List.contains_iff_exists_mem_beq.mp hc
      have hea : e.code = a := by simpa using hba
      exact hall e he (hea ▸ ha)

/-- Witness for C4 at a concrete run (a failing range check). -/
theorem C4_validator_finalize_invariants_witness :
    ((Validator.finalize (runCalls demoHashers (Validator.new bindToy)
        [VCall.rangeU64 16 4])).ok = true →
      (Validator.finalize (runCalls demoHashers (Validator.new bindToy)
        [VCall.rangeU64 16 4])).errors = []) ∧
    ((Validator.finalize (runCalls demoHashers (Validator.new bindToy)
        [VCall.rangeU64 16 4])).commit_passed = true ↔
      ∀ e ∈ (Validator.finalize (runCalls demoHashers (Validator.new bindToy)
        [VCall.rangeU64 16 4])).errors, e.code ∉ COMMIT_ERROR_CODES) :=
  C4_validator_finalize_invariants demoHashers bindToy [VCall.rangeU64 16 4]

/-- Witness for C5 at concrete configs (accepted and rejected). -/
theorem C5_validate_config_ordered_checks_witness :
    validate_config builtinRegistry (.ok builtin_profiles) cfgToy
      = validateConfigSpec builtinRegistry (.ok builtin_profiles) cfgToy ∧
    (validate_config builtinRegistry (.ok builtin_profiles) cfgToy
        = .ok () ↔
      ∃ c, builtinRegistry cfgToy.backend_id = some c ∧
        c.fields.contains cfgToy.field = true ∧
        c.hashes.contains cfgToy.hash = true ∧
        c.fri_arities.contains cfgToy.fri_arity = true ∧
        (cfgToy.recursion_needed = true → c.recursion ≠ "none") ∧
        ∃ ps, (Except.ok builtin_profiles : Except String (List Profile))
            = .ok ps ∧
          ps.any (fun p => p.id = cfgToy.profile_id) = true) :=
  C5_validate_config_ordered_checks builtinRegistry (.ok builtin_profiles)
    cfgToy

/-- C8: on a validator whose bindings enable Pedersen with the placeholder
curve and the `no_r_reuse` policy, the first `check_r_reuse(r)` records
`r` and adds no error, and the second produces exactly one
`BlindingReuse` error. -/
theorem C8_blinding_reuse_second_call (b : Bindings) (r : List Nat)
    (hped : b.commitments.pedersen = true)
    (hcurve : b.commitments.curve = none ∨
      b.commitments.curve = some "placeholder")
    (hnr : b.commitments.no_r_reuse = some true) :
    ((Validator.new b).check_r_reuse r).report.errors = [] ∧
    ((Validator.new b).check_r_reuse r).blinds.used = [r] ∧
    ((((Validator.new b).check_r_reuse r).check_r_reuse r).report.errors.map
      (fun e => e.code)) = [.BlindingReuse] ∧
    (((Validator.new b).check_r_reuse r).check_r_reuse r).blinds.used
      = [r] := by
  have hctx : PedersenCtx.from_bindings b = .ok
      ⟨b.hash_id_for_commitments.getD "blake3", "placeholder", true⟩ := by
    rcases hcurve with hc | hc <;>
      simp [PedersenCtx.from_bindings, hc, hnr]
  have hnew : Validator.new b = {
      cfg := ValidationConfig.from_bindings b
      ped := some ⟨b.hash_id_for_commitments.getD "blake3", "placeholder",
        true⟩
      blinds := BlindingTracker.new
      report := ValidationReport.new_ok
        ⟨"", "", (ValidationConfig.from_bindings b).requested_hash.getD
          "blake3", (ValidationConfig.from_bindings b).requested_curve,
          0⟩ } := by
    unfold Validator.new
    rw [hctx]
    simp [ValidationConfig.from_bindings, hped]
  rw [hnew]
  simp [VState.check_r_reuse, ValidationConfig.from_bindings, hped,
    BlindingTracker.note_and_check, BlindingTracker.new,
    ValidationReport.new_ok, VState.push_privacy_error,
    ValidationReport.push_error, PrivacyError.toMessage,
    map_privacy_error]

/-- Witness for C8 at the concrete bindings and blind `[7]`. -/
theorem C8_blinding_reuse_second_call_witness :
    bindToy.commitments.pedersen = true ∧
    bindToy.commitments.no_r_reuse = some true ∧
    ((Validator.new bindToy).check_r_reuse [7]).report.errors = [] ∧
    ((((Validator.new bindToy).check_r_reuse [7]).check_r_reuse
      [7]).report.errors.map (fun e => e.code)) = [.BlindingReuse] := by
  have hm := C8_blinding_reuse_second_call bindToy [7] (by decide)
    (Or.inr (by decide)) (by decide)
  exact ⟨by decide, by decide, hm.1, hm.2.2.1⟩

theorem hash32_by_id_isSome_congr (Hs : Hashers) (id : String)
    (label label2 : String) (data data2 : List Nat) :
    (hash32_by_id Hs id label data).isSome
      = (hash32_by_id Hs id label2 data2).isSome := by
  unfold hash32_by_id
  split_ifs <;> rfl

/-- C6: the placeholder Pedersen scheme opens its own commitment as true;
openings at a different message (resp. blind) are false whenever the
underlying digests differ, and the length-prefixed commitment buffer
separates distinct messages and distinct blinds, so only a digest
collision can defeat binding. -/
theorem C6_pedersen_placeholder_commit_open (Hs : Hashers)
    (hash_id : String) (m r m2 r2 C : List Nat)
    (hc : PedersenPlaceholder.commit Hs hash_id m r = .ok C) :
    PedersenPlaceholder.openComm Hs hash_id m r C = .ok true ∧
    (commit_raw Hs hash_id m2 r ≠ commit_raw Hs hash_id m r →
      PedersenPlaceholder.openComm Hs hash_id m2 r C = .ok false) ∧
    (commit_raw Hs hash_id m r2 ≠ commit_raw Hs hash_id m r →
      PedersenPlaceholder.openComm Hs hash_id m r2 C = .ok false) ∧
    (m.length < 2 ^ 64 → m2.length < 2 ^ 64 → m2 ≠ m →
      pedersenBuf m2 r ≠ pedersenBuf m r) ∧
    (r.length < 2 ^ 64 → r2.length < 2 ^ 64 → r2 ≠ r →
      pedersenBuf m r2 ≠ pedersenBuf m r) := by
  have hraw : commit_raw Hs hash_id m r = some C := by
    unfold PedersenPlaceholder.commit at hc
    cases hcr : commit_raw Hs hash_id m r with
    | none => rw [hcr] at hc; exact absurd hc (by simp)
    | some d =>
      rw [hcr] at hc
      simp only [Except.ok.injEq] at hc
      rw [hc]
  refine ⟨?_, ?_, ?_, ?_, ?_⟩
  · unfold PedersenPlaceholder.openComm
    rw [hraw]
    simp
  · intro hne
    unfold PedersenPlaceholder.openComm
    cases hcr2 : commit_raw Hs hash_id m2 r with
    | none =>
      have hs : (commit_raw Hs hash_id m2 r).isSome
          = (commit_raw Hs hash_id m r).isSome :=
        hash32_by_id_isSome_congr Hs hash_id _ _ _ _
      rw [hcr2, hraw] at hs
      exact absurd hs (by simp)
    | some d2 =>
      have hd2 : d2 ≠ C := fun he => hne (by rw [hcr2, hraw, he])
      simp [hd2]
  · intro hne
    unfold PedersenPlaceholder.openComm
    cases hcr2 : commit_raw Hs hash_id m r2 with
    | none =>
      have hs : (commit_raw Hs hash_id m r2).isSome
          = (commit_raw Hs hash_id m r).isSome :=
        hash32_by_id_isSome_congr Hs hash_id _ _ _ _
      rw [hcr2, hraw] at hs
      exact absurd hs (by simp)
    | some d2 =>
      have hd2 : d2 ≠ C := fun he => hne (by rw [hcr2, hraw, he])
      simp [hd2]
  · intro hml hm2l hne heq
    unfold pedersenBuf at heq
    have h1 := List.append_inj heq (by simp [toLeBytes8_length])
    have hlen : m2.length = m.length :=
      toLeBytes8_injOn hm2l hml h1.1
    have h2 := List.append_inj h1.2 hlen
    exact hne h2.1
  · intro hrl hr2l hne heq
    unfold pedersenBuf at heq
    have h1 := List.append_inj heq (by simp [toLeBytes8_length])
    have h2 := List.append_inj h1.2 rfl
    have h3 := List.append_inj h2.2 (by simp [toLeBytes8_length])
    exact hne h3.2

/-- Witness for C6 at concrete bytes under the demo hashers. -/
theorem C6_pedersen_placeholder_commit_open_witness :
    PedersenPlaceholder.commit demoHashers "blake3" [1] [2] = .ok pedC ∧
    PedersenPlaceholder.openComm demoHashers "blake3" [1] [2] pedC
      = .ok true ∧
    PedersenPlaceholder.openComm demoHashers "blake3" [3] [2] pedC
      = .ok false ∧
    PedersenPlaceholder.openComm demoHashers "blake3" [1] [4] pedC
      = .ok false := by
  have hc : PedersenPlaceholder.commit demoHashers "blake3" [1] [2]
      = .ok pedC := by decide
  have hm := C6_pedersen_placeholder_commit_open demoHashers "blake3"
    [1] [2] [3] [4] pedC hc
  exact ⟨hc, hm.1, hm.2.1 (by decide), hm.2.2.1 (by decide)⟩

theorem toNat_ofNat_of_lt {n : Nat} (h : n < 55296) :
    (Char.ofNat n).toNat = n := by
  have hv : Nat.isValidChar n := Or.inl h
  simp [Char.ofNat, hv, Char.ofNatAux, Char.toNat, UInt32.toNat,
    BitVec.toNat_ofNatLt]

theorem isWsChar_asciiLower (c : Char) :
    isWsChar (asciiLowerChar c) = isWsChar c := by
  unfold asciiLowerChar
  by_cases h : 65 ≤ c.toNat ∧ c.toNat ≤ 90
  · rw [if_pos h]
    have ht : (Char.ofNat (c.toNat + 32)).toNat = c.toNat + 32 :=
      toNat_ofNat_of_lt (by omega)
    unfold isWsChar
    rw [ht]
    have h1 : ¬ (c.toNat + 32 = 9 ∨ c.toNat + 32 = 10 ∨ c.toNat + 32 = 11 ∨
        c.toNat + 32 = 12 ∨ c.toNat + 32 = 13 ∨ c.toNat + 32 = 32) := by
      omega
    have h2 : ¬ (c.toNat = 9 ∨ c.toNat = 10 ∨ c.toNat = 11 ∨
        c.toNat = 12 ∨ c.toNat = 13 ∨ c.toNat = 32) := by
      omega
    rw [decide_eq_false h1, decide_eq_false h2]
  · rw [if_neg h]

theorem asciiLower_asciiLower (c : Char) :
    asciiLowerChar (asciiLowerChar c) = asciiLowerChar c := by
  unfold asciiLowerChar
  by_cases h : 65 ≤ c.toNat ∧ c.toNat ≤ 90
  · rw [if_pos h]
    have ht : (Char.ofNat (c.toNat + 32)).toNat = c.toNat + 32 :=
      toNat_ofNat_of_lt (by omega)
    rw [if_neg (by omega)]
  · rw [if_neg h, if_neg h]

theorem dropWhile_dropWhile {α : Type} (p : α → Bool) (l : List α) :
    (l.dropWhile p).dropWhile p = l.dropWhile p := by
  cases h : l.dropWhile p with
  | nil => rfl
  | cons a t =>
    have hh := List.head?_dropWhile_not p l
    rw [h] at hh
    simp only [List.head?_cons] at hh
    rw [List.dropWhile_cons_of_neg (by simp [hh])]

theorem trimBack_prefix (l : List Char) : trimBack l <+: l := by
  unfold trimBack
  have h : l.reverse.dropWhile isWsChar <:+ l.reverse :=
    List.dropWhile_suffix isWsChar
  have h2 := List.reverse_prefix.mpr h
  rwa [List.reverse_reverse] at h2

theorem trimFront_eq_self_of_head (l : List Char)
    (h : ∀ a, l.head? = some a → isWsChar a = false) :
    trimFront l = l := by
  cases l with
  | nil => rfl
  | cons a t =>
    unfold trimFront
    exact List.dropWhile_cons_of_neg (by simp [h a rfl])

theorem head_trimFront_not_ws (l : List Char) (a : Char)
    (ha : (trimFront l).head? = some a) : isWsChar a = false := by
  have hh := List.head?_dropWhile_not isWsChar l
  unfold trimFront at ha
  rw [ha] at hh
  exact hh

theorem head?_of_trimBack (l : List Char) (a : Char)
    (h : (trimBack l).head? = some a) : l.head? = some a := by
  obtain ⟨s, hs⟩ := trimBack_prefix l
  cases hb : trimBack l with
  | nil => rw [hb] at h; exact absurd h (by simp)
  | cons b t =>
    rw [hb] at h hs
    simp only [List.head?_cons, Option.some.injEq] at h
    rw [← hs, List.cons_append, List.head?_cons, h]

theorem trimBack_trimBack (l : List Char) :
    trimBack (trimBack l) = trimBack l := by
  unfold trimBack
  rw [List.reverse_reverse, dropWhile_dropWhile]

theorem trimChars_idem (l : List Char) :
    trimChars (trimChars l) = trimChars l := by
  unfold trimChars
  have h1 : trimFront (trimBack (trimFront l)) = trimBack (trimFront l) := by
    apply trimFront_eq_self_of_head
    intro a ha
    exact head_trimFront_not_ws l a (head?_of_trimBack _ a ha)
  rw [h1, trimBack_trimBack]

theorem trimChars_map_asciiLower (l : List Char) :
    trimChars (l.map asciiLowerChar) = (trimChars l).map asciiLowerChar := by
  unfold trimChars trimFront trimBack
  rw [List.dropWhile_map, ← List.map_reverse, List.dropWhile_map,
    ← List.map_reverse]
  have hp : (isWsChar ∘ asciiLowerChar) = isWsChar := by
    funext c
    exact isWsChar_asciiLower c
  rw [hp]

theorem normalizeId_idem (id : String) :
    normalizeId (normalizeId id) = normalizeId id := by
  unfold normalizeId
  simp only []
  rw [trimChars_map_asciiLower, trimChars_idem, List.map_map]
  have : (asciiLowerChar ∘ asciiLowerChar) = asciiLowerChar := by
    funext c
    exact asciiLower_asciiLower c
  rw [this]

/-- C9: hash-id lookup is insensitive to surrounding whitespace and ASCII
case — both `hash32_by_id` and `hash64_by_id` agree with the
trimmed-and-lowercased id, `" BLAKE3 "` resolves to blake3, and the
result is `None` exactly when the id does not normalize to one of the four
supported ids. -/
theorem C9_hash_id_lookup_normalizes (Hs : Hashers) (id : String)
    (label : String) (data : List Nat) :
    hash32_by_id Hs id label data
      = hash32_by_id Hs (normalizeId id) label data ∧
    hash64_by_id Hs id label data
      = hash64_by_id Hs (normalizeId id) label data ∧
    (hash32_by_id Hs id label data = none ↔
      normalizeId id ∉
        (["blake3", "keccak256", "poseidon2", "rescue"] : List String)) ∧
    hash32_by_id Hs " BLAKE3 " label data
      = some (hash_labeled Hs.blake3 label data) := by
  have h32 : hash32_by_id Hs id label data
      = hash32_by_id Hs (normalizeId id) label data := by
    unfold hash32_by_id
    rw [normalizeId_idem]
  refine ⟨h32, ?_, ?_, ?_⟩
  · unfold hash64_by_id
    rw [h32]
  · unfold hash32_by_id
    split_ifs with h1 h2 h3 h4
    · simp [h1]
    · simp [h2]
    · simp [h3]
    · simp [h4]
    · simp [h1, h2, h3, h4]
  · have hb : normalizeId " BLAKE3 " = "blake3" := by decide
    unfold hash32_by_id
    rw [hb]
    simp
